import Mathlib

/-
Verification of the fellow-ai-mcp server core: the resilient call executor
(retry with exponential backoff and jitter, from server.ts `call`), the
get-by-id entity extraction (`fetchNoteById` / `fetchRecordingById`), and the
cursor-based paginated aggregator of the list-style tools.

JSON-ish runtime values are embedded as the inductive `JVal`; JavaScript
operations used by the code (optional member access, nullish coalescing `??`,
truthiness, `Array.isArray`, `Object.keys(...).length`) are embedded as total
functions on `JVal`.  Time is modelled by recording the waits the code would
perform (as rationals: base delay plus a jitter parameter standing for
`Math.random() * 200`).  The network is modelled as a function from the
attempt (or page) index to that attempt's outcome.
-/

namespace FellowMcp

/-- JavaScript runtime values, as far as the server manipulates them. -/
inductive JVal where
  | vUndef
  | vNull
  | vBool (b : Bool)
  | vNum (n : Int)
  | vStr (s : String)
  | vArr (elems : List JVal)
  | vObj (fields : List (String × JVal))

/-- Property access `v?.name`: on objects, the first binding of `name`
(`undefined` when absent); on every non-object (including `null` and
`undefined`, via optional chaining) it yields `undefined`. -/
def getField : JVal → String → JVal
  | JVal.vObj fields, name =>
    match fields.lookup name with
    | some v => v
    | none => JVal.vUndef
  | _, _ => JVal.vUndef

/-- Whether the value is `null` or `undefined` (the values `??` skips). -/
def isNullish : JVal → Bool
  | JVal.vUndef => true
  | JVal.vNull => true
  | _ => false

/-- The nullish-coalescing operator `a ?? b`. -/
def nco (a b : JVal) : JVal :=
  if isNullish a then b else a

/-- JavaScript truthiness (no floats occur, so NaN is not modelled). -/
def truthy : JVal → Bool
  | JVal.vUndef => false
  | JVal.vNull => false
  | JVal.vBool b => b
  | JVal.vNum n => n != 0
  | JVal.vStr s => s != ""
  | JVal.vArr _ => true
  | JVal.vObj _ => true

/-- The test `typeof v === 'object'` (true for `null`, arrays and objects). -/
def typeofObject : JVal → Bool
  | JVal.vNull => true
  | JVal.vArr _ => true
  | JVal.vObj _ => true
  | _ => false

/-- The test `Array.isArray v`. -/
def isArr : JVal → Bool
  | JVal.vArr _ => true
  | _ => false

/-- The count `Object.keys(v).length` for object values, `0` otherwise. -/
def objKeysCount : JVal → Nat
  | JVal.vObj fields => fields.length
  | _ => 0

/-- An upstream (axios) error: `e?.response?.status` when the response carried
an HTTP status, `none` for network-level failures, plus its message. -/
structure UpstreamError where
  status : Option Nat
  message : String
deriving DecidableEq, Repr

/-- The outcome of one network attempt, as the mocked transport produces it. -/
inductive Attempt (α : Type) where
  | success (body : α)
  | failure (err : UpstreamError)

/-- The retry guard of `call` (server.ts line 32):
`status === 429 || (status >= 500 && status <= 599)`.  An absent status
(network-level error) compares false on both sides. -/
def retryableStatus : Option Nat → Bool
  | some s => s == 429 || (500 ≤ s && s ≤ 599)
  | none => false

/-- Errors `call` can raise: the original upstream error propagated unchanged,
or the distinct terminal error thrown after exhausting all attempts. -/
inductive CallError where
  | upstream (e : UpstreamError)
  | exhausted
deriving DecidableEq, Repr

/-- The message carried by a `CallError` (server.ts line 40 for `exhausted`). -/
def CallError.message : CallError → String
  | CallError.upstream e => e.message
  | CallError.exhausted => "Upstream unavailable after retries"

/-- The observable trace of one `call` invocation: its result, how many
network requests it issued, and the waits (in time units) it performed. -/
structure CallTrace (α : Type) where
  result : Except CallError α
  requests : Nat
  waits : List Rat

/-- One iteration of the `for (attempt = 1; attempt <= 4; ...)` loop of
`call` (server.ts lines 24-41), with the remaining attempts as fuel:
try the request; on success return its body; on a retryable failure wait
`delay + jitter` (the source waits `delay + Math.random() * 200`), double
the delay and continue; on any other failure rethrow the original error;
when the loop ends, throw the terminal exhaustion error. -/
def callAux {α : Type} (upstream : Nat → Attempt α) (jitter : Nat → Rat)
    (attempt : Nat) (delay : Rat) : Nat → CallTrace α
  | 0 => ⟨Except.error CallError.exhausted, 0, []⟩
  | fuel + 1 =>
    match upstream attempt with
    | Attempt.success body => ⟨Except.ok body, 1, []⟩
    | Attempt.failure e =>
      if retryableStatus e.status then
        let rest := callAux upstream jitter (attempt + 1) (delay * 2) fuel
        ⟨rest.result, rest.requests + 1, (delay + jitter attempt) :: rest.waits⟩
      else
        ⟨Except.error (CallError.upstream e), 1, []⟩

/-- The `call` helper of server.ts: 4 total attempts, initial delay 300. -/
def call {α : Type} (upstream : Nat → Attempt α) (jitter : Nat → Rat) : CallTrace α :=
  callAux upstream jitter 0 300 4

/-- A persistently failing upstream, every attempt a retryable 503. -/
def failingUpstream : Nat → Attempt Nat :=
  fun _ => Attempt.failure ⟨some 503, "service unavailable"⟩

/-- An upstream whose every attempt is a terminal 404. -/
def terminalUpstream : Nat → Attempt Nat :=
  fun _ => Attempt.failure ⟨some 404, "not found"⟩

/-- An upstream that rate-limits the first attempt and then succeeds. -/
def retryThenOkUpstream : Nat → Attempt Nat
  | 0 => Attempt.failure ⟨some 429, "rate limited"⟩
  | _ => Attempt.success 7

/-- C2: when every attempt fails with a retryable status (429 or 500-599),
`call` issues exactly 4 network requests and raises the terminal exhaustion
error, whose message is "Upstream unavailable after retries" and which is
distinct from every upstream error, so the caller never sees the raw
upstream exception after exhaustion. -/
theorem call_exhausts_after_four_retryable_failures {α : Type}
    (upstream : Nat → Attempt α) (jitter : Nat → Rat)
    (hfail : ∀ i, i < 4 → ∃ e, upstream i = Attempt.failure e ∧
      retryableStatus e.status = true) :
    (call upstream jitter).requests = 4 ∧
    (call upstream jitter).result = Except.error CallError.exhausted ∧
    CallError.message CallError.exhausted = "Upstream unavailable after retries" ∧
    ∀ e : UpstreamError, CallError.exhausted ≠ CallError.upstream e := by
  obtain ⟨e0, h0, r0⟩ := hfail 0 (by norm_num)
  obtain ⟨e1, h1, r1⟩ := hfail 1 (by norm_num)
  obtain ⟨e2, h2, r2⟩ := hfail 2 (by norm_num)
  obtain ⟨e3, h3, r3⟩ := hfail 3 (by norm_num)
  refine ⟨?_, ?_, rfl, fun e h => CallError.noConfusion h⟩
  · simp [call, callAux, h0, h1, h2, h3, r0, r1, r2, r3]
  · simp [call, callAux, h0, h1, h2, h3, r0, r1, r2, r3]

/-- Witness for C2 at the persistently failing 503 upstream. -/
theorem call_exhausts_witness :
    (call failingUpstream (fun _ => 0)).requests = 4 ∧
    (call failingUpstream (fun _ => 0)).result = Except.error CallError.exhausted ∧
    CallError.message CallError.exhausted = "Upstream unavailable after retries" ∧
    ∀ e : UpstreamError, CallError.exhausted ≠ CallError.upstream e :=
  call_exhausts_after_four_retryable_failures failingUpstream (fun _ => 0)
    (fun _ _ => ⟨⟨some 503, "service unavailable"⟩, rfl, rfl⟩)

/-- C3: when the first attempt fails with a non-retryable error (any status
other than 429 and outside 500-599, including statusless network-level
errors), `call` issues exactly 1 network request and propagates the original
error object unchanged, with no retry. -/
theorem call_terminal_propagates_original {α : Type}
    (upstream : Nat → Attempt α) (jitter : Nat → Rat) (e : UpstreamError)
    (h0 : upstream 0 = Attempt.failure e)
    (hterm : retryableStatus e.status = false) :
    (call upstream jitter).requests = 1 ∧
    (call upstream jitter).result = Except.error (CallError.upstream e) ∧
    CallError.message (CallError.upstream e) = e.message := by
  refine ⟨?_, ?_, rfl⟩
  · simp [call, callAux, h0, hterm]
  · simp [call, callAux, h0, hterm]

/-- Witness for C3 at a terminal 404 upstream. -/
theorem call_terminal_witness :
    (call terminalUpstream (fun _ => 0)).requests = 1 ∧
    (call terminalUpstream (fun _ => 0)).result =
      Except.error (CallError.upstream ⟨some 404, "not found"⟩) ∧
    CallError.message (CallError.upstream ⟨some 404, "not found"⟩) = "not found" :=
  call_terminal_propagates_original terminalUpstream (fun _ => 0)
    ⟨some 404, "not found"⟩ rfl rfl

/-- C4: when the first `k ≤ 3` attempts fail with retryable statuses and
attempt `k` succeeds, `call` returns the eventually-successful body, issues
exactly `k + 1` network requests, and its waits follow the doubling base
delays 300, 600, 1200 each plus that retry's jitter; in particular for one
failure then success (`k = 1`) there are exactly 2 requests and, when every
jitter lies in [0, 200), the single wait lies in [300, 500). -/
theorem call_backoff_schedule {α : Type}
    (upstream : Nat → Attempt α) (jitter : Nat → Rat) (b : α) (k : Nat)
    (hk : k ≤ 3)
    (hfail : ∀ i, i < k → ∃ e, upstream i = Attempt.failure e ∧
      retryableStatus e.status = true)
    (hsucc : upstream k = Attempt.success b)
    (hjit : ∀ i, 0 ≤ jitter i ∧ jitter i < 200) :
    (call upstream jitter).result = Except.ok b ∧
    (call upstream jitter).requests = k + 1 ∧
    (call upstream jitter).waits =
      (List.range k).map (fun i => 300 * 2 ^ i + jitter i) ∧
    (k = 1 → (call upstream jitter).waits = [300 + jitter 0] ∧
      300 ≤ 300 + jitter 0 ∧ 300 + jitter 0 < 500) := by
  have hj0 := hjit 0
  have hcase : k = 0 ∨ k = 1 ∨ k = 2 ∨ k = 3 := by omega
  rcases hcase with rfl | rfl | rfl | rfl
  · refine ⟨?_, ?_, ?_, fun h => absurd h (by norm_num)⟩ <;>
      simp [call, callAux, hsucc]
  · obtain ⟨e0, h0, r0⟩ := hfail 0 (by norm_num)
    refine ⟨?_, ?_, ?_, fun _ => ⟨?_, by linarith [hj0.1], by linarith [hj0.2]⟩⟩ <;>
      simp [call, callAux, h0, r0, hsucc, List.range_succ]
  · obtain ⟨e0, h0, r0⟩ := hfail 0 (by norm_num)
    obtain ⟨e1, h1, r1⟩ := hfail 1 (by norm_num)
    refine ⟨?_, ?_, ?_, fun h => absurd h (by norm_num)⟩ <;>
      simp [call, callAux, h0, h1, r0, r1, hsucc, List.range_succ]
  · obtain ⟨e0, h0, r0⟩ := hfail 0 (by norm_num)
    obtain ⟨e1, h1, r1⟩ := hfail 1 (by norm_num)
    obtain ⟨e2, h2, r2⟩ := hfail 2 (by norm_num)
    refine ⟨?_, ?_, ?_, fun h => absurd h (by norm_num)⟩ <;>
      simp [call, callAux, h0, h1, h2, r0, r1, r2, hsucc, List.range_succ] <;> norm_num

/-- Witness for C4: a 429 on the first attempt, success on the second,
jitter fixed at 100, so the single wait is 400 and lies in [300, 500). -/
theorem call_backoff_witness :
    (call retryThenOkUpstream (fun _ => 100)).result = Except.ok 7 ∧
    (call retryThenOkUpstream (fun _ => 100)).requests = 1 + 1 ∧
    (call retryThenOkUpstream (fun _ => 100)).waits =
      (List.range 1).map (fun i => 300 * 2 ^ i + (fun _ => (100 : Rat)) i) ∧
    (1 = 1 → (call retryThenOkUpstream (fun _ => 100)).waits =
        [300 + (fun _ => (100 : Rat)) 0] ∧
      300 ≤ 300 + (fun _ => (100 : Rat)) 0 ∧
      300 + (fun _ => (100 : Rat)) 0 < 500) :=
  call_backoff_schedule retryThenOkUpstream (fun _ => 100) 7 1 (by norm_num)
    (fun i hi => by
      have hi0 : i = 0 := by omega
      exact hi0 ▸ ⟨⟨some 429, "rate limited"⟩, rfl, rfl⟩)
    rfl (fun _ => ⟨by norm_num, by norm_num⟩)

/-- Errors the get-by-id helpers can raise: an error propagated from `call`,
or the not-found domain failure raised after a successful fetch. -/
inductive FetchError where
  | call (e : CallError)
  | notFound (message : String)
deriving DecidableEq, Repr

/-- The step `Array.isArray(candidate) ? candidate[0] : candidate`
(`candidate[0]` on an empty array is `undefined`). -/
def firstIfArray : JVal → JVal
  | JVal.vArr elems => elems.headD JVal.vUndef
  | v => v

/-- The emptiness test of `fetchNoteById` / `fetchRecordingById`:
`!note || (typeof note === 'object' && !Array.isArray(note) &&
Object.keys(note).length === 0)`. -/
def isEmptyEntity (v : JVal) : Bool :=
  !truthy v || (typeofObject v && !isArr v && objKeysCount v == 0)

/-- `fetchNoteById` of server.ts, over the outcome of its `call` to
`GET /note/{id}`: select `payload?.note ?? payload?.data ?? payload`, take
the first element when that is an array, raise `Note <id> not found` when
the result is empty, and return it otherwise. -/
def fetchNoteById (noteId : String) (response : Except CallError JVal) :
    Except FetchError JVal :=
  match response with
  | Except.error e => Except.error (FetchError.call e)
  | Except.ok payload =>
    let note := firstIfArray (nco (getField payload "note")
      (nco (getField payload "data") payload))
    if isEmptyEntity note then
      Except.error (FetchError.notFound ("Note " ++ noteId ++ " not found"))
    else
      Except.ok note

/-- `fetchRecordingById` of server.ts, over the outcome of its `call` to
`GET /recording/{id}`: same shape as `fetchNoteById` with the `recording`
field and message. -/
def fetchRecordingById (recordingId : String) (response : Except CallError JVal) :
    Except FetchError JVal :=
  match response with
  | Except.error e => Except.error (FetchError.call e)
  | Except.ok payload =>
    let recording := firstIfArray (nco (getField payload "recording")
      (nco (getField payload "data") payload))
    if isEmptyEntity recording then
      Except.error (FetchError.notFound ("Recording " ++ recordingId ++ " not found"))
    else
      Except.ok recording

/-- C9: a get-by-id fetch whose network call succeeds but whose response
carries no entity payload (here the empty object) raises a not-found failure
naming the requested identifier, and not-found failures are distinct from
failures propagated from the network layer. -/
theorem fetch_missing_entity_not_found (noteId recordingId : String) :
    fetchNoteById noteId (Except.ok (JVal.vObj [])) =
      Except.error (FetchError.notFound ("Note " ++ noteId ++ " not found")) ∧
    fetchNoteById noteId (Except.ok JVal.vNull) =
      Except.error (FetchError.notFound ("Note " ++ noteId ++ " not found")) ∧
    fetchNoteById noteId (Except.ok (JVal.vObj [("data", JVal.vArr [])])) =
      Except.error (FetchError.notFound ("Note " ++ noteId ++ " not found")) ∧
    fetchRecordingById recordingId (Except.ok (JVal.vObj [])) =
      Except.error (FetchError.notFound
        ("Recording " ++ recordingId ++ " not found")) ∧
    ∀ m : String, ∀ e : CallError,
      FetchError.notFound m ≠ FetchError.call e :=
  ⟨rfl, rfl, rfl, rfl, fun _ _ h => FetchError.noConfusion h⟩

/-- C10 spec side: the candidate is found by probing, in order, the payload's
named entity field, then its `data` field, then the payload root. -/
def specProbeCandidate (field : String) (payload : JVal) : JVal :=
  match [getField payload field, getField payload "data", payload].find?
      (fun v => !isNullish v) with
  | some v => v
  | none => payload

/-- C10 spec side: if the selected candidate is an array, its first element
is taken (absent when the array is empty). -/
def specFirstElement : JVal → JVal
  | JVal.vArr [] => JVal.vUndef
  | JVal.vArr (v :: _) => v
  | v => v

/-- C10 spec side: the entity is missing exactly when the resulting value is
absent/falsy or is a non-array object with zero keys. -/
def specIsMissing (v : JVal) : Bool :=
  !truthy v ||
    (match v with
     | JVal.vObj fields => fields.isEmpty
     | _ => false)

/-- C10 spec side: the get-by-id extraction as the claim words it. -/
def specFetchById (field label entityId : String) (payload : JVal) :
    Except FetchError JVal :=
  let v := specFirstElement (specProbeCandidate field payload)
  if specIsMissing v then
    Except.error (FetchError.notFound (label ++ " " ++ entityId ++ " not found"))
  else
    Except.ok v

/-- The source's `?? `-chain selects the same candidate the claim's
probe-in-order description does. -/
theorem nco_chain_eq_specProbe (field : String) (payload : JVal) :
    nco (getField payload field) (nco (getField payload "data") payload) =
      specProbeCandidate field payload := by
  unfold nco specProbeCandidate
  cases h1 : isNullish (getField payload field) <;>
    cases h2 : isNullish (getField payload "data") <;>
      cases h3 : isNullish payload <;>
        simp [List.find?, h1, h2, h3]

/-- The source's array-head step agrees with the claim's. -/
theorem firstIfArray_eq_specFirst (v : JVal) :
    firstIfArray v = specFirstElement v := by
  cases v with
  | vArr elems => cases elems <;> rfl
  | _ => rfl

/-- The source's emptiness test agrees with the claim's characterisation. -/
theorem isEmptyEntity_eq_specIsMissing (v : JVal) :
    isEmptyEntity v = specIsMissing v := by
  cases v with
  | vObj fields =>
    cases fields <;>
      simp [isEmptyEntity, specIsMissing, truthy, typeofObject, isArr, objKeysCount]
  | _ => rfl

/-- C10: for every payload, the get-by-id helpers behave exactly as the
claim describes — probe `note` (resp. `recording`), then `data`, then the
root; take an array's first element; raise not-found exactly for
absent/falsy values and empty non-array objects; return anything else. -/
theorem fetch_extraction_matches_probe_description
    (noteId recordingId : String) (payload : JVal) :
    fetchNoteById noteId (Except.ok payload) =
      specFetchById "note" "Note" noteId payload ∧
    fetchRecordingById recordingId (Except.ok payload) =
      specFetchById "recording" "Recording" recordingId payload := by
  constructor
  · simp [fetchNoteById, specFetchById, nco_chain_eq_specProbe,
      firstIfArray_eq_specFirst, isEmptyEntity_eq_specIsMissing]
  · simp [fetchRecordingById, specFetchById, nco_chain_eq_specProbe,
      firstIfArray_eq_specFirst, isEmptyEntity_eq_specIsMissing]

/-- Modelled from the spec: the page-envelope normalization of the Paginated
Aggregator (the aggregating list_notes / list_recordings tool handlers are
missing from server.ts; only their tests remain in the repository).  Probe
the nested shape first — the envelope under the named key — and fall back to
the flat root shape when that key is absent. -/
def pageEnvelope (key : String) (payload : JVal) : JVal :=
  if isNullish (getField payload key) then payload else getField payload key

/-- Modelled from the spec: extract one page's items from the envelope's
`data` field (the items field as the repository's tests shape it),
defaulting to the empty sequence when absent. -/
def pageItems (key : String) (payload : JVal) : List JVal :=
  match getField (pageEnvelope key payload) "data" with
  | JVal.vArr elems => elems
  | _ => []

/-- Modelled from the spec: extract one page's next cursor from the
envelope's `page_info.cursor`; a null/absent (or non-string) value signals
exhaustion. -/
def pageCursor (key : String) (payload : JVal) : Option String :=
  match getField (getField (pageEnvelope key payload) "page_info") "cursor" with
  | JVal.vStr s => some s
  | _ => none

/-- The aggregated result: a count and the concatenated items. -/
structure Aggregate where
  count : Nat
  items : List JVal

/-- The observable trace of one aggregation run: its result and the cursor
each issued page request carried, in fetch order (so `sentCursors.length`
is the number of network requests). -/
structure AggTrace where
  result : Except CallError Aggregate
  sentCursors : List (Option String)

/-- Modelled from the spec: the page loop of the Paginated Aggregator,
missing from server.ts (only its tests remain).  `pages i` is the Call
Executor's outcome for the i-th page fetch; the fuel is the remaining page
budget.  Each iteration fetches one page with the current cursor, appends
its items, and continues with the returned cursor while one is present and
budget remains; an absent/null cursor stops the loop, reaching the budget
stops it without error, and any call failure aborts the whole run.  The
fixed inter-page pause is not modelled; no claim concerns it. -/
def aggAux (pages : Nat → Except CallError JVal) (key : String) :
    Nat → Option String → Nat → Except CallError (List JVal) × List (Option String)
  | _, _, 0 => (Except.ok [], [])
  | idx, cursor, fuel + 1 =>
    match pages idx with
    | Except.error e => (Except.error e, [cursor])
    | Except.ok payload =>
      match pageCursor key payload with
      | none => (Except.ok (pageItems key payload), [cursor])
      | some c =>
        let rest := aggAux pages key (idx + 1) (some c) fuel
        (rest.1.map (fun xs => pageItems key payload ++ xs), cursor :: rest.2)

/-- Modelled from the spec: the Paginated Aggregator's contract
`aggregate(endpoint, body_template, page_size, max_pages) -> {count, items}`,
starting from an absent cursor and building the count from the accumulator's
length. -/
def aggregate (pages : Nat → Except CallError JVal) (key : String)
    (maxPages : Nat) : AggTrace :=
  let r := aggAux pages key 0 none maxPages
  ⟨r.1.map (fun xs => ⟨xs.length, xs⟩), r.2⟩

/-- A list item `{id: <id>}` as the repository's tests shape it. -/
def noteItem (id : String) : JVal :=
  JVal.vObj [("id", JVal.vStr id)]

/-- A nested-shape notes page `{notes: {data, page_info: {cursor}}}`. -/
def notesPage (ids : List String) (cursor : JVal) : JVal :=
  JVal.vObj [("notes", JVal.vObj
    [("data", JVal.vArr (ids.map noteItem)),
     ("page_info", JVal.vObj [("cursor", cursor)])])]

/-- A flat-shape page `{page_info: {cursor}, data}`. -/
def flatPage (ids : List String) (cursor : JVal) : JVal :=
  JVal.vObj
    [("page_info", JVal.vObj [("cursor", cursor)]),
     ("data", JVal.vArr (ids.map noteItem))]

/-- The 2-page upstream of the aggregation claims: page 1 holds one item and
cursor "cursor-1", page 2 holds one item and cursor null. -/
def twoPageUpstream : Nat → Except CallError JVal
  | 0 => Except.ok (notesPage ["n1"] (JVal.vStr "cursor-1"))
  | _ => Except.ok (notesPage ["n2"] JVal.vNull)

/-- A 3-page upstream: every page returns a valid next cursor except the
last. -/
def threePageUpstream : Nat → Except CallError JVal
  | 0 => Except.ok (notesPage ["n1"] (JVal.vStr "cursor-1"))
  | 1 => Except.ok (notesPage ["n2"] (JVal.vStr "cursor-2"))
  | _ => Except.ok (notesPage ["n3"] JVal.vNull)

/-- Like `threePageUpstream` but the third fetch would fail, so any run that
touched it could not succeed. -/
def threePagePoisoned : Nat → Except CallError JVal
  | 0 => Except.ok (notesPage ["n1"] (JVal.vStr "cursor-1"))
  | 1 => Except.ok (notesPage ["n2"] (JVal.vStr "cursor-2"))
  | _ => Except.error CallError.exhausted

/-- C1: on the 2-page sequence (page 1: one item, cursor "cursor-1"; page 2:
one item, cursor null) with `max_pages = 2`, the aggregation returns
`count = 2` with the two items concatenated in fetch order, and issues
exactly 2 network requests. -/
theorem agg_two_pages :
    (aggregate twoPageUpstream "notes" 2).result =
      Except.ok ⟨2, [noteItem "n1", noteItem "n2"]⟩ ∧
    (aggregate twoPageUpstream "notes" 2).sentCursors.length = 2 :=
  ⟨rfl, rfl⟩

/-- C5: with 3 available pages but `max_pages = 2`, exactly 2 network
requests occur, the run completes successfully with only the first 2 pages'
items, and the outcome is unchanged when the third page is poisoned — the
third page is never fetched. -/
theorem agg_max_pages_ceiling :
    (aggregate threePageUpstream "notes" 2).result =
      Except.ok ⟨2, [noteItem "n1", noteItem "n2"]⟩ ∧
    (aggregate threePageUpstream "notes" 2).sentCursors.length = 2 ∧
    aggregate threePageUpstream "notes" 2 = aggregate threePagePoisoned "notes" 2 :=
  ⟨rfl, rfl, rfl⟩

/-- The cursors the aggregation loop sends: the first request carries the
loop's entry cursor, and each later request carries the (present) cursor
extracted from the immediately preceding page. -/
theorem aggAux_sent_chain (pages : Nat → Except CallError JVal) (key : String) :
    ∀ (fuel idx : Nat) (cursor : Option String),
      (∀ cs, (aggAux pages key idx cursor fuel).2.get? 0 = some cs → cs = cursor) ∧
      (∀ i cs, (aggAux pages key idx cursor fuel).2.get? (i + 1) = some cs →
        ∃ payload, pages (idx + i) = Except.ok payload ∧
          cs = pageCursor key payload ∧ cs.isSome = true) := by
  intro fuel
  induction fuel with
  | zero =>
    intro idx cursor
    constructor
    · intro cs h
      simp [aggAux] at h
    · intro i cs h
      simp [aggAux] at h
  | succ n ih =>
    intro idx cursor
    cases hp : pages idx with
    | error e =>
      constructor
      · intro cs h
        simp [aggAux, hp] at h
        exact h.symm
      · intro i cs h
        simp [aggAux, hp] at h
    | ok payload =>
      cases hc : pageCursor key payload with
      | none =>
        constructor
        · intro cs h
          simp [aggAux, hp, hc] at h
          exact h.symm
        · intro i cs h
          simp [aggAux, hp, hc] at h
      | some c =>
        constructor
        · intro cs h
          simp [aggAux, hp, hc] at h
          exact h.symm
        · intro i cs h
          have htail : (aggAux pages key (idx + 1) (some c) n).2.get? i = some cs := by
            simpa [aggAux, hp, hc] using h
          cases i with
          | zero =>
            have hcs : cs = some c := (ih (idx + 1) (some c)).1 cs htail
            exact ⟨payload, by simpa using hp, by rw [hcs, hc], by rw [hcs]; rfl⟩
          | succ m =>
            obtain ⟨q, hq, hqc, hqs⟩ := (ih (idx + 1) (some c)).2 m cs htail
            refine ⟨q, ?_, hqc, hqs⟩
            have harith : idx + (m + 1) = idx + 1 + m := by omega
            rw [harith]
            exact hq

/-- C6: in every aggregation run, the first page request carries an absent
cursor, and the request for page n+1 carries exactly the cursor the upstream
returned for page n (which is necessarily present). -/
theorem agg_cursor_progression (pages : Nat → Except CallError JVal)
    (key : String) (maxPages : Nat) :
    (∀ cs, (aggregate pages key maxPages).sentCursors.get? 0 = some cs →
      cs = none) ∧
    (∀ i cs, (aggregate pages key maxPages).sentCursors.get? (i + 1) = some cs →
      ∃ payload, pages i = Except.ok payload ∧
        cs = pageCursor key payload ∧ cs.isSome = true) := by
  have h := aggAux_sent_chain pages key maxPages 0 none
  refine ⟨fun cs hcs => h.1 cs (by simpa [aggregate] using hcs), ?_⟩
  intro i cs hcs
  have := h.2 i cs (by simpa [aggregate] using hcs)
  simpa using this

/-- Witness for C6 on the concrete 2-page run: the second request carried
exactly "cursor-1", the cursor page 1 returned. -/
theorem agg_cursor_progression_witness :
    ∃ payload, twoPageUpstream 0 = Except.ok payload ∧
      (some "cursor-1" : Option String) = pageCursor "notes" payload ∧
      (some "cursor-1" : Option String).isSome = true :=
  (agg_cursor_progression twoPageUpstream "notes" 2).2 0 (some "cursor-1") rfl

/-- Wrapping a flat page under the named key yields the same envelope,
provided the flat page is a real value and does not itself carry the key. -/
theorem pageEnvelope_nest (key : String) (p : JVal) (h1 : isNullish p = false)
    (h2 : isNullish (getField p key) = true) :
    pageEnvelope key (JVal.vObj [(key, p)]) = pageEnvelope key p := by
  have hg : getField (JVal.vObj [(key, p)]) key = p := by
    simp [getField, List.lookup]
  simp [pageEnvelope, hg, h1, h2]

/-- The flat-to-nested transformation on an upstream page sequence: each
successful page is wrapped under the named key. -/
def nestPages (key : String) (pages : Nat → Except CallError JVal) :
    Nat → Except CallError JVal :=
  fun i => (pages i).map (fun p => JVal.vObj [(key, p)])

/-- The aggregation loop is unchanged when every page of the upstream is
wrapped from the flat shape into the nested shape. -/
theorem aggAux_shape (pages : Nat → Except CallError JVal) (key : String)
    (hflat : ∀ i p, pages i = Except.ok p →
      isNullish p = false ∧ isNullish (getField p key) = true) :
    ∀ (fuel idx : Nat) (cursor : Option String),
      aggAux (nestPages key pages) key idx cursor fuel =
        aggAux pages key idx cursor fuel := by
  intro fuel
  induction fuel with
  | zero => intro idx cursor; rfl
  | succ n ih =>
    intro idx cursor
    cases hp : pages idx with
    | error e =>
      have hnp : nestPages key pages idx = Except.error e := by
        simp [nestPages, hp, Except.map]
      simp [aggAux, hp, hnp]
    | ok p =>
      obtain ⟨h1, h2⟩ := hflat idx p hp
      have hnp : nestPages key pages idx = Except.ok (JVal.vObj [(key, p)]) := by
        simp [nestPages, hp, Except.map]
      have henv := pageEnvelope_nest key p h1 h2
      have hitems : pageItems key (JVal.vObj [(key, p)]) = pageItems key p := by
        simp [pageItems, henv]
      have hcur : pageCursor key (JVal.vObj [(key, p)]) = pageCursor key p := by
        simp [pageCursor, henv]
      cases hc : pageCursor key p with
      | none => simp [aggAux, hp, hnp, hcur, hc, hitems]
      | some c => simp [aggAux, hp, hnp, hcur, hc, hitems, ih]

/-- C7: aggregation produces identical results — same items, same count,
same cursor progression — whether each page envelope nests items and
page_info under the named key or places them flat at the response root
(assuming the flat pages are real values not already carrying the key). -/
theorem agg_shape_independent (pages : Nat → Except CallError JVal)
    (key : String) (maxPages : Nat)
    (hflat : ∀ i p, pages i = Except.ok p →
      isNullish p = false ∧ isNullish (getField p key) = true) :
    aggregate (nestPages key pages) key maxPages =
      aggregate pages key maxPages := by
  simp only [aggregate]
  rw [aggAux_shape pages key hflat maxPages 0 none]

/-- The flat-shape 2-page upstream used to witness C7. -/
def flatUpstream : Nat → Except CallError JVal
  | 0 => Except.ok (flatPage ["n1"] (JVal.vStr "cursor-1"))
  | _ => Except.ok (flatPage ["n2"] JVal.vNull)

/-- Witness for C7 at the concrete flat 2-page upstream. -/
theorem agg_shape_independent_witness :
    aggregate (nestPages "notes" flatUpstream) "notes" 2 =
      aggregate flatUpstream "notes" 2 :=
  agg_shape_independent flatUpstream "notes" 2 (by
    intro i p h
    cases i with
    | zero =>
      injection h with h
      subst h
      exact ⟨rfl, rfl⟩
    | succ m =>
      injection h with h
      subst h
      exact ⟨rfl, rfl⟩)

/-- C8: every successful aggregation run returns `{count, items}` with
`count` equal to the length of `items` — an invariant of the construction,
for every upstream sequence and page budget. -/
theorem agg_count_is_items_length (pages : Nat → Except CallError JVal)
    (key : String) (maxPages : Nat) (a : Aggregate)
    (h : (aggregate pages key maxPages).result = Except.ok a) :
    a.count = a.items.length := by
  have h' : (aggAux pages key 0 none maxPages).1.map
      (fun xs => (⟨xs.length, xs⟩ : Aggregate)) = Except.ok a := by
    simpa [aggregate] using h
  cases hr : (aggAux pages key 0 none maxPages).1 with
  | error e =>
    rw [hr] at h'
    simp [Except.map] at h'
  | ok xs =>
    rw [hr] at h'
    obtain rfl : (⟨xs.length, xs⟩ : Aggregate) = a := by
      simpa [Except.map] using h'
    rfl

/-- Witness for C8 at the concrete 2-page run. -/
theorem agg_count_witness :
    (⟨2, [noteItem "n1", noteItem "n2"]⟩ : Aggregate).count =
      (⟨2, [noteItem "n1", noteItem "n2"]⟩ : Aggregate).items.length :=
  agg_count_is_items_length twoPageUpstream "notes" 2
    ⟨2, [noteItem "n1", noteItem "n2"]⟩ rfl

end FellowMcp
